import Mathlib

/-!
Verification of the authentication subsystem of the Hackthon backend
(`backend/auth.py`, `backend/crud.py`, `backend/main.py`,
`backend/schemas.py`, `backend/models.py`), shallowly embedded in Lean.

Modelling conventions:
* Machine time is `Nat` (seconds since the epoch); every `datetime.utcnow()`
  inside a single request evaluates to the one `now` parameter of that request.
* A JOSE JWT is modelled symbolically as its decoded payload together with the
  signing key; `jwt.decode` succeeds exactly when the key matches and the
  `exp` claim (when present) has not passed, matching python-jose, whose
  expiry check raises only when `exp < now` strictly.
* `uuid.uuid4()` results are passed in as explicit `jti` parameters.
* SHA-256 (`hashlib.sha256(...).hexdigest()`) is modelled as an injective
  constructor into a dedicated digest type: deterministic and
  collision-resistant, and a digest value is never a raw token.
* bcrypt password hashing is modelled as a deterministic tag on the password;
  no claim under verification depends on its cryptographic properties.
-/

namespace Hackthon

/-- A JSON claim value as used in the token payloads (strings and numbers). -/
inductive CVal where
  | s (v : String)
  | n (v : Nat)
deriving DecidableEq, Repr

/-- A token payload: a python dict of claims, insertion-ordered. -/
abbrev Claims := List (String × CVal)

/-- Python `d[k] = v`: overwrite the binding in place if the key exists
(python dicts keep insertion order and have unique keys), else append. -/
def dictSet : Claims → String → CVal → Claims
  | [], k, v => [(k, v)]
  | p :: rest, k, v => if p.1 == k then (k, v) :: rest else p :: dictSet rest k v

/-- Python `d.get(k)` on a claims dict (first binding wins). -/
def dictGet (d : Claims) (k : String) : Option CVal :=
  List.lookup k d

/-- `d.get(k)` when a string is expected; a non-string or absent value is `none`. -/
def dictGetS (d : Claims) (k : String) : Option String :=
  match dictGet d k with
  | some (CVal.s v) => some v
  | _ => none

/-- `d.get(k)` when a number is expected; a non-number or absent value is `none`. -/
def dictGetN (d : Claims) (k : String) : Option Nat :=
  match dictGet d k with
  | some (CVal.n v) => some v
  | _ => none

/-- Python truthiness of an optional string (`if old_jti:`):
`None` and the empty string are falsy. -/
def strTruthy : Option String → Bool
  | some s => !(s == "")
  | none => false

/-- A signed JWT, modelled as the payload it carries plus the key it was
signed with; stands for the serialized compact token string. -/
structure SignedToken where
  payload : Claims
  key : String
deriving DecidableEq, Repr

/-- `auth.SECRET_KEY`. -/
def SECRET_KEY : String := "your-secret-key-change-in-production-use-env-variable"

/-- `auth.REFRESH_SECRET_KEY`. -/
def REFRESH_SECRET_KEY : String := "refresh-secret-key-different-from-access"

/-- `auth.ACCESS_TOKEN_EXPIRE_MINUTES`. -/
def ACCESS_TOKEN_EXPIRE_MINUTES : Nat := 15

/-- `auth.REFRESH_TOKEN_EXPIRE_DAYS`. -/
def REFRESH_TOKEN_EXPIRE_DAYS : Nat := 7

/-- `jose.jwt.encode(payload, key)`. -/
def jwtEncode (payload : Claims) (key : String) : SignedToken :=
  SignedToken.mk payload key

/-- `jose.jwt.decode(token, key)` evaluated at time `now`, with the `except
JWTError` collapse of the callers: a wrong key (bad signature), a malformed
`exp`, or `exp < now` all yield `none`; otherwise the payload is returned. -/
def jwtDecode (t : SignedToken) (key : String) (now : Nat) : Option Claims :=
  if t.key == key then
    match dictGet t.payload "exp" with
    | some (CVal.n e) => if e < now then none else some t.payload
    | some (CVal.s _) => none
    | none => some t.payload
  else
    none

/-- `auth.create_access_token(data, expires_delta)` at time `now` with the
fresh `uuid4` value `jti` (the delta is in seconds). -/
def create_access_token (data : Claims) (expires_delta : Option Nat)
    (now : Nat) (jti : String) : SignedToken :=
  let expire := match expires_delta with
    | some d => now + d
    | none => now + ACCESS_TOKEN_EXPIRE_MINUTES * 60
  let to_encode :=
    dictSet (dictSet (dictSet data "exp" (CVal.n expire))
      "type" (CVal.s "access")) "jti" (CVal.s jti)
  jwtEncode to_encode SECRET_KEY

/-- `auth.create_refresh_token(data)` at time `now` with fresh `uuid4` `jti`. -/
def create_refresh_token (data : Claims) (now : Nat) (jti : String) : SignedToken :=
  let expire := now + REFRESH_TOKEN_EXPIRE_DAYS * 86400
  let to_encode :=
    dictSet (dictSet (dictSet data "exp" (CVal.n expire))
      "type" (CVal.s "refresh")) "jti" (CVal.s jti)
  jwtEncode to_encode REFRESH_SECRET_KEY

/-- `auth.create_token_pair(email)` at time `now`, with the two fresh `uuid4`
values `jtiA` (access) and `jtiR` (refresh). -/
def create_token_pair (email : String) (now : Nat) (jtiA jtiR : String) :
    SignedToken × SignedToken :=
  let data : Claims := [("sub", CVal.s email)]
  (create_access_token data none now jtiA, create_refresh_token data now jtiR)

/-- `auth.decode_access_token(token)` at time `now`. -/
def decode_access_token (t : SignedToken) (now : Nat) : Option Claims :=
  match jwtDecode t SECRET_KEY now with
  | none => none
  | some payload =>
      if dictGet payload "type" == some (CVal.s "access") then some payload
      else none

/-- `auth.decode_refresh_token(token)` at time `now`. -/
def decode_refresh_token (t : SignedToken) (now : Nat) : Option Claims :=
  match jwtDecode t REFRESH_SECRET_KEY now with
  | none => none
  | some payload =>
      if dictGet payload "type" == some (CVal.s "refresh") then some payload
      else none

/-- `auth.get_token_jti(token, token_type)` at time `now`. -/
def get_token_jti (t : SignedToken) (token_type : String) (now : Nat) :
    Option String :=
  let payload :=
    if token_type == "access" then decode_access_token t now
    else decode_refresh_token t now
  match payload with
  | some p => dictGetS p "jti"
  | none => none

/-- `auth.hash_password`, modelled as a deterministic stand-in for the salted
bcrypt digest (no verified claim depends on its cryptographic structure). -/
def hash_password (password : String) : String :=
  "bcrypt-hash-of:" ++ password

/-- `auth.verify_password`. -/
def verify_password (plain : String) (hashed : String) : Bool :=
  hash_password plain == hashed

/-- A SHA-256 hex digest of a serialized token, modelled symbolically: the
constructor is injective (collision resistance) and the type is disjoint from
raw tokens, so a digest value is never the raw signed token. -/
inductive Sha256Digest where
  | ofToken (t : SignedToken)
deriving DecidableEq, Repr

/-- `crud._hash_token(token)`: `hashlib.sha256(token.encode()).hexdigest()`. -/
def hash_token (token : SignedToken) : Sha256Digest :=
  Sha256Digest.ofToken token

/-- A row of the `users` table (`models.User`). -/
structure UserRow where
  id : Nat
  email : String
  password_hash : String
  full_name : Option String
  phone : Option String
  is_active : Bool
  is_verified : Bool
  created_at : Nat
  last_login : Option Nat
deriving DecidableEq, Repr

/-- Modelled from the spec: the `TokenBlacklist` ORM row. `models.py` in the
repository does not define the class `crud.py` imports; §3's BlacklistEntry
gives its shape — unique token id (`jti`, the key), token type, optional
owner email, expiry — matching exactly the fields `crud.blacklist_token`
populates. -/
structure BlacklistRow where
  jti : String
  token_type : String
  user_email : Option String
  expires_at : Nat
deriving DecidableEq, Repr

/-- Modelled from the spec: the `RefreshToken` ORM row (the ledger).
`models.py` does not define the class `crud.py` imports; §3's RefreshToken
ledger row gives its shape — unique id (`jti`, primary key), owning email, a
one-way hash of the full signed token, expiry, revoked flag, revoked
timestamp, optional forward link `replaced_by` — matching exactly the fields
`crud.py` reads and writes (`is_revoked` defaults to false, the timestamps
and the link to null). -/
structure RefreshRow where
  jti : String
  user_email : String
  token_hash : Sha256Digest
  expires_at : Nat
  is_revoked : Bool
  revoked_at : Option Nat
  replaced_by : Option String
deriving DecidableEq, Repr

/-- The relational store: the three tables the authentication slice touches. -/
structure DB where
  users : List UserRow
  blacklist : List BlacklistRow
  refresh_tokens : List RefreshRow
deriving DecidableEq, Repr

/-- `crud.get_user_by_email`: `query(User).filter(User.email == email).first()`.
Column equality is the store's binary string equality; no case normalization
appears anywhere in the source. -/
def get_user_by_email (db : DB) (email : String) : Option UserRow :=
  db.users.find? (fun u => u.email == email)

/-- `crud.create_user` (id from autoincrement, `is_active` default true,
`is_verified` default false, `created_at` from the server clock). -/
def create_user (db : DB) (email password : String)
    (full_name phone : Option String) (now : Nat) : DB × UserRow :=
  let db_user : UserRow :=
    { id := db.users.length + 1
      email := email
      password_hash := hash_password password
      full_name := full_name
      phone := phone
      is_active := true
      is_verified := false
      created_at := now
      last_login := none }
  ({ db with users := db.users ++ [db_user] }, db_user)

/-- `crud.update_last_login`. -/
def update_last_login (db : DB) (user : UserRow) (now : Nat) : DB × UserRow :=
  let user' := { user with last_login := some now }
  ({ db with users := db.users.map (fun u => if u.id == user.id then user' else u) },
   user')

/-- `crud.blacklist_token`: a plain `INSERT` of a row keyed by the unique
`jti`; on a duplicate `jti` the commit raises an integrity error (modelled as
`none`) — the behaviour `main.logout` anticipates with its
`except Exception: pass  # Token may already be blacklisted`. The uniqueness
of `jti` is modelled from the spec (§3: BlacklistEntry's unique-id), the
column declaration being absent from `models.py`. -/
def blacklist_token (db : DB) (jti token_type : String)
    (expires_at : Nat) (user_email : Option String) :
    Option (DB × BlacklistRow) :=
  if db.blacklist.any (fun b => b.jti == jti) then none
  else
    let row : BlacklistRow :=
      { jti := jti, token_type := token_type
        user_email := user_email, expires_at := expires_at }
    some ({ db with blacklist := db.blacklist ++ [row] }, row)

/-- `crud.is_token_blacklisted`. -/
def is_token_blacklisted (db : DB) (jti : String) : Bool :=
  db.blacklist.any (fun b => b.jti == jti)

/-- `crud.cleanup_expired_blacklist`: `DELETE WHERE expires_at < utcnow()`,
returning the number of deleted rows. -/
def cleanup_expired_blacklist (db : DB) (now : Nat) : DB × Nat :=
  let kept := db.blacklist.filter (fun b => !(decide (b.expires_at < now)))
  ({ db with blacklist := kept }, db.blacklist.length - kept.length)

/-- `crud.store_refresh_token`: inserts a ledger row holding the SHA-256
digest of the presented token (never the raw token); `jti` is the primary
key, so a duplicate insert raises (modelled as `none`; primary-key role from
§3, the column declaration being absent from `models.py`). -/
def store_refresh_token (db : DB) (jti user_email : String)
    (token : SignedToken) (expires_at : Nat) : Option (DB × RefreshRow) :=
  if db.refresh_tokens.any (fun r => r.jti == jti) then none
  else
    let row : RefreshRow :=
      { jti := jti, user_email := user_email
        token_hash := hash_token token, expires_at := expires_at
        is_revoked := false, revoked_at := none, replaced_by := none }
    some ({ db with refresh_tokens := db.refresh_tokens ++ [row] }, row)

/-- `crud.get_refresh_token`. -/
def get_refresh_token (db : DB) (jti : String) : Option RefreshRow :=
  db.refresh_tokens.find? (fun r => r.jti == jti)

/-- `crud.validate_refresh_token` at time `now`. -/
def validate_refresh_token (db : DB) (jti : String) (token : SignedToken)
    (now : Nat) : Bool :=
  match get_refresh_token db jti with
  | none => false
  | some r =>
      if r.is_revoked then false
      else if r.expires_at < now then false
      else r.token_hash == hash_token token

/-- `crud.revoke_refresh_token` at time `now`. -/
def revoke_refresh_token (db : DB) (jti : String) (now : Nat) : DB × Bool :=
  match get_refresh_token db jti with
  | none => (db, false)
  | some _ =>
      let upd := fun (r : RefreshRow) =>
        if r.jti == jti then { r with is_revoked := true, revoked_at := some now }
        else r
      ({ db with refresh_tokens := db.refresh_tokens.map upd }, true)

/-- `crud.revoke_all_user_tokens`: one bulk conditional
`UPDATE WHERE user_email = email AND is_revoked = false`, returning the
number of matched rows. -/
def revoke_all_user_tokens (db : DB) (user_email : String) (now : Nat) :
    DB × Nat :=
  let hit := fun (r : RefreshRow) => r.user_email == user_email && !r.is_revoked
  let upd := fun (r : RefreshRow) =>
    if hit r then { r with is_revoked := true, revoked_at := some now } else r
  ({ db with refresh_tokens := db.refresh_tokens.map upd },
   (db.refresh_tokens.filter hit).length)

/-- `crud.rotate_refresh_token` at time `now`: if the old row is found it is
marked revoked with `replaced_by = new_jti` unconditionally (no ACTIVE
check); if it is not found, the function continues silently; either way a new
active row is then inserted via `store_refresh_token`. -/
def rotate_refresh_token (db : DB) (old_jti new_jti user_email : String)
    (new_token : SignedToken) (expires_at : Nat) (now : Nat) :
    Option (DB × RefreshRow) :=
  let db1 :=
    match get_refresh_token db old_jti with
    | none => db
    | some _ =>
        let upd := fun (r : RefreshRow) =>
          if r.jti == old_jti then
            { r with is_revoked := true, revoked_at := some now
                     replaced_by := some new_jti }
          else r
        { db with refresh_tokens := db.refresh_tokens.map upd }
  store_refresh_token db1 new_jti user_email new_token expires_at

/-- `crud.cleanup_expired_refresh_tokens`: `DELETE WHERE expires_at < utcnow()`,
returning the number of deleted rows. -/
def cleanup_expired_refresh_tokens (db : DB) (now : Nat) : DB × Nat :=
  let kept := db.refresh_tokens.filter (fun r => !(decide (r.expires_at < now)))
  ({ db with refresh_tokens := kept }, db.refresh_tokens.length - kept.length)

/-- Python truthiness of an optional claim value (`if old_jti:`). -/
def cvTruthy : Option CVal → Bool
  | some (CVal.s v) => !(v == "")
  | some (CVal.n v) => !(v == 0)
  | none => false

/-- `is_token_blacklisted(db, x)` where `x` came from `payload.get(...)`: a
missing or non-string value matches no row of the string-keyed column. -/
def blacklistedCV (db : DB) (v : Option CVal) : Bool :=
  match v with
  | some (CVal.s j) => is_token_blacklisted db j
  | _ => false

/-- `schemas.UserResponse`. -/
structure UserResponse where
  id : Nat
  email : String
  full_name : Option String
  phone : Option String
  is_active : Bool
  is_verified : Bool
  created_at : Option Nat
deriving DecidableEq, Repr

/-- The `UserResponse(...)` constructions in `main.py`. -/
def userResponseOf (u : UserRow) : UserResponse :=
  { id := u.id, email := u.email, full_name := u.full_name, phone := u.phone
    is_active := u.is_active, is_verified := u.is_verified
    created_at := some u.created_at }

/-- The keyword arguments `main.py` passes to `TokenResponse(...)` in
`register`, `login` and `refresh_tokens`. -/
structure TokenResponseArgs where
  access_token : SignedToken
  refresh_token : SignedToken
  token_type : String
  expires_in : Nat
  user : UserResponse
deriving DecidableEq, Repr

/-- `schemas.TokenResponse` — the declared response model: it has exactly the
fields `access_token`, `token_type` (default "bearer") and `user`. -/
structure TokenResponse where
  access_token : SignedToken
  token_type : String
  user : UserResponse
deriving DecidableEq, Repr

/-- Pydantic model construction with the default `extra = ignore`: the
keyword arguments `refresh_token` and `expires_in`, not being declared fields
of `schemas.TokenResponse`, are silently dropped. -/
def toTokenResponse (a : TokenResponseArgs) : TokenResponse :=
  { access_token := a.access_token, token_type := a.token_type, user := a.user }

/-- A top-level JSON value of a serialized response body. -/
inductive JVal where
  | str (v : String)
  | num (v : Nat)
  | tok (t : SignedToken)
  | userObj (u : UserResponse)
deriving DecidableEq, Repr

/-- The JSON body FastAPI serializes for `response_model=TokenResponse`:
exactly the declared fields of `schemas.TokenResponse`. -/
def tokenResponseJson (r : TokenResponse) : List (String × JVal) :=
  [("access_token", JVal.tok r.access_token),
   ("token_type", JVal.str r.token_type),
   ("user", JVal.userObj r.user)]

/-- A FastAPI `HTTPException(status_code, detail)`. -/
structure HTTPError where
  status : Nat
  detail : String
deriving DecidableEq, Repr

/-- `main.register` at time `now`, with the fresh `uuid4` values `jtiA`,
`jtiR` minted inside `create_token_pair`. -/
def register (db : DB) (email password : String)
    (full_name phone : Option String) (now : Nat) (jtiA jtiR : String) :
    Except HTTPError (DB × TokenResponseArgs) :=
  match get_user_by_email db email with
  | some _ => Except.error ⟨400, "Email already registered"⟩
  | none =>
      let res := create_user db email password full_name phone now
      let db1 := res.1
      let new_user := res.2
      let pair := create_token_pair new_user.email now jtiA jtiR
      let refresh_jti := get_token_jti pair.2 "refresh" now
      let db2? : Option DB :=
        if strTruthy refresh_jti then
          (store_refresh_token db1 (refresh_jti.getD "") new_user.email pair.2
            (now + REFRESH_TOKEN_EXPIRE_DAYS * 86400)).map (fun p => p.1)
        else some db1
      match db2? with
      | none => Except.error ⟨500, "Internal Server Error"⟩
      | some db2 =>
          Except.ok (db2,
            { access_token := pair.1, refresh_token := pair.2
              token_type := "bearer"
              expires_in := ACCESS_TOKEN_EXPIRE_MINUTES * 60
              user := userResponseOf new_user })

/-- `main.login` at time `now`. -/
def login (db : DB) (email password : String) (now : Nat) (jtiA jtiR : String) :
    Except HTTPError (DB × TokenResponseArgs) :=
  match get_user_by_email db email with
  | none => Except.error ⟨401, "Invalid email or password"⟩
  | some user =>
      if !verify_password password user.password_hash then
        Except.error ⟨401, "Invalid email or password"⟩
      else if !user.is_active then
        Except.error ⟨403, "Account is disabled"⟩
      else
        let db1 := (update_last_login db user now).1
        let pair := create_token_pair user.email now jtiA jtiR
        let refresh_jti := get_token_jti pair.2 "refresh" now
        let db2? : Option DB :=
          if strTruthy refresh_jti then
            (store_refresh_token db1 (refresh_jti.getD "") user.email pair.2
              (now + REFRESH_TOKEN_EXPIRE_DAYS * 86400)).map (fun p => p.1)
          else some db1
        match db2? with
        | none => Except.error ⟨500, "Internal Server Error"⟩
        | some db2 =>
            Except.ok (db2,
              { access_token := pair.1, refresh_token := pair.2
                token_type := "bearer"
                expires_in := ACCESS_TOKEN_EXPIRE_MINUTES * 60
                user := userResponseOf user })

/-- `main.refresh_tokens` at time `now`, with the fresh `uuid4` values
`jtiA`, `jtiR` minted for the new pair. -/
def refresh_tokens (db : DB) (token : SignedToken) (now : Nat)
    (jtiA jtiR : String) : Except HTTPError (DB × TokenResponseArgs) :=
  match decode_refresh_token token now with
  | none => Except.error ⟨401, "Invalid or expired refresh token"⟩
  | some payload =>
      let old_jti := dictGet payload "jti"
      let user_email := dictGet payload "sub"
      if cvTruthy old_jti && blacklistedCV db old_jti then
        Except.error ⟨401, "Token has been revoked"⟩
      else
        let valid :=
          match old_jti with
          | some (CVal.s j) => validate_refresh_token db j token now
          | _ => false
        if !valid then Except.error ⟨401, "Invalid or revoked refresh token"⟩
        else
          let user? :=
            match user_email with
            | some (CVal.s e) => get_user_by_email db e
            | _ => none
          match user? with
          | none => Except.error ⟨401, "User not found or inactive"⟩
          | some user =>
              if !user.is_active then
                Except.error ⟨401, "User not found or inactive"⟩
              else
                let email := match user_email with
                  | some (CVal.s e) => e
                  | _ => ""
                let pair := create_token_pair email now jtiA jtiR
                let new_jti := get_token_jti pair.2 "refresh" now
                let db1? : Option DB :=
                  if cvTruthy old_jti && strTruthy new_jti then
                    let oj := match old_jti with
                      | some (CVal.s j) => j
                      | some (CVal.n v) => toString v
                      | none => ""
                    (rotate_refresh_token db oj (new_jti.getD "") email pair.2
                      (now + REFRESH_TOKEN_EXPIRE_DAYS * 86400) now).map
                      (fun p => p.1)
                  else some db
                match db1? with
                | none => Except.error ⟨500, "Internal Server Error"⟩
                | some db1 =>
                    Except.ok (db1,
                      { access_token := pair.1, refresh_token := pair.2
                        token_type := "bearer"
                        expires_in := ACCESS_TOKEN_EXPIRE_MINUTES * 60
                        user := userResponseOf user })

/-- The body of `main.logout`. -/
structure LogoutResponse where
  success : Bool
  message : String
  tokens_revoked : List String
deriving DecidableEq, Repr

/-- `main.logout` at time `now`. The input `auth` is the bearer token of a
well-formed `Authorization: Bearer ...` header, `none` when the header is
absent or malformed. The endpoint declares no body parameter at all, so a
refresh token supplied by the client is never read. -/
def logout (db : DB) (auth : Option SignedToken) (now : Nat) :
    DB × LogoutResponse :=
  let okBody := fun (revoked : List String) =>
    LogoutResponse.mk true "Logged out successfully" revoked
  match auth with
  | none => (db, okBody [])
  | some tok =>
      match decode_access_token tok now with
      | none => (db, okBody [])
      | some payload =>
          let jti? := dictGet payload "jti"
          if cvTruthy jti? then
            let j := match jti? with
              | some (CVal.s v) => v
              | some (CVal.n v) => toString v
              | none => ""
            let exp_at := match dictGetN payload "exp" with
              | some e => if e == 0 then now + 900 else e
              | none => now + 900
            match blacklist_token db j "access" exp_at (dictGetS payload "sub") with
            | none => (db, okBody [])
            | some res => (res.1, okBody ["access_token"])
          else (db, okBody [])

/-- `main.logout_all_devices` at time `now`; `auth` as in `logout`, with a
missing or malformed header rejected (the header is required here). -/
def logout_all_devices (db : DB) (auth : Option SignedToken) (now : Nat) :
    Except HTTPError (DB × Nat) :=
  match auth with
  | none => Except.error ⟨401, "Invalid authorization header"⟩
  | some tok =>
      match decode_access_token tok now with
      | none => Except.error ⟨401, "Invalid or expired access token"⟩
      | some payload =>
          let jti? := dictGet payload "jti"
          if cvTruthy jti? && blacklistedCV db jti? then
            Except.error ⟨401, "Token has been revoked"⟩
          else
            let res :=
              match dictGet payload "sub" with
              | some (CVal.s e) => revoke_all_user_tokens db e now
              | _ => (db, 0)
            Except.ok res

/-- A concrete refresh token issued at time 1000 for `a@x.com` (fixture). -/
def tok0 : SignedToken := create_refresh_token [("sub", CVal.s "a@x.com")] 1000 "jtiR0"

/-- The ledger row `store_refresh_token` persists for `tok0` (fixture). -/
def row0 : RefreshRow :=
  { jti := "jtiR0", user_email := "a@x.com", token_hash := hash_token tok0
    expires_at := 1000 + REFRESH_TOKEN_EXPIRE_DAYS * 86400
    is_revoked := false, revoked_at := none, replaced_by := none }

/-- A concrete active user (fixture). -/
def user0 : UserRow :=
  { id := 1, email := "a@x.com", password_hash := hash_password "secret99"
    full_name := none, phone := none, is_active := true, is_verified := false
    created_at := 500, last_login := none }

/-- A database holding `user0` and the active ledger row `row0` (fixture). -/
def db0 : DB := { users := [user0], blacklist := [], refresh_tokens := [row0] }

/-- The empty database (fixture). -/
def dbEmpty : DB := { users := [], blacklist := [], refresh_tokens := [] }

/-- The database produced by registering `a@x.com` into `dbEmpty` (fixture). -/
def dbReg : DB :=
  match register dbEmpty "a@x.com" "secret99" none none 1000 "A1" "R1" with
  | Except.ok p => p.1
  | Except.error _ => dbEmpty

/-- A database whose blacklist already holds the jti `J1` (fixture). -/
def dbBl : DB :=
  { users := [], blacklist := [⟨"J1", "access", none, 5000⟩], refresh_tokens := [] }

/-- An active ledger row of `a@x.com` (fixture). -/
def rowA : RefreshRow := ⟨"r1", "a@x.com", hash_token tok0, 9000, false, none, none⟩

/-- An already-revoked ledger row of `a@x.com`, revoked at 77 (fixture). -/
def rowB : RefreshRow := ⟨"r2", "a@x.com", hash_token tok0, 9000, true, some 77, none⟩

/-- An active ledger row of another user (fixture). -/
def rowC : RefreshRow := ⟨"r3", "b@x.com", hash_token tok0, 9000, false, none, none⟩

/-- A ledger mixing the three kinds of rows (fixture). -/
def dbMix : DB := ⟨[], [], [rowA, rowB, rowC]⟩

/-! ## Dictionary lemmas -/

theorem dictGet_dictSet_self (d : Claims) (k : String) (v : CVal) :
    dictGet (dictSet d k v) k = some v := by
  induction d with
  | nil => simp [dictSet, dictGet, List.lookup]
  | cons p rest ih =>
      by_cases h : p.1 = k
      · simp [dictSet, dictGet, List.lookup, h]
      · have hb : (p.1 == k) = false := by simp [h]
        have hk : (k == p.1) = false := by simp [Ne.symm h]
        simpa [dictSet, dictGet, List.lookup, hb, hk] using ih

theorem dictGet_dictSet_ne (d : Claims) (k k2 : String) (v : CVal)
    (h : k ≠ k2) : dictGet (dictSet d k2 v) k = dictGet d k := by
  have hkk2 : (k == k2) = false := by simp [h]
  induction d with
  | nil => simp [dictSet, dictGet, List.lookup, hkk2]
  | cons p rest ih =>
      by_cases h2 : p.1 = k2
      · have hb : (p.1 == k2) = true := by simp [h2]
        have hk : (k == p.1) = false := by
          subst h2; exact hkk2
        simp [dictSet, dictGet, List.lookup, hb, hk, hkk2]
      · have hb : (p.1 == k2) = false := by simp [h2]
        by_cases h3 : k = p.1
        · simp [dictSet, dictGet, List.lookup, hb, h3]
        · have hk : (k == p.1) = false := by simp [h3]
          simpa [dictSet, dictGet, List.lookup, hb, hk] using ih

/-! ## Token encode/decode lemmas -/

theorem decode_refresh_create (data : Claims) (t0 now : Nat) (j : String) :
    decode_refresh_token (create_refresh_token data t0 j) now =
      (if t0 + REFRESH_TOKEN_EXPIRE_DAYS * 86400 < now then none
       else some (dictSet (dictSet (dictSet data "exp"
         (CVal.n (t0 + REFRESH_TOKEN_EXPIRE_DAYS * 86400)))
         "type" (CVal.s "refresh")) "jti" (CVal.s j))) := by
  unfold decode_refresh_token jwtDecode create_refresh_token jwtEncode
  have hexp : dictGet (dictSet (dictSet (dictSet data "exp"
      (CVal.n (t0 + REFRESH_TOKEN_EXPIRE_DAYS * 86400)))
      "type" (CVal.s "refresh")) "jti" (CVal.s j)) "exp" =
      some (CVal.n (t0 + REFRESH_TOKEN_EXPIRE_DAYS * 86400)) := by
    rw [dictGet_dictSet_ne _ _ _ _ (by decide), dictGet_dictSet_ne _ _ _ _ (by decide),
      dictGet_dictSet_self]
  have hty : dictGet (dictSet (dictSet (dictSet data "exp"
      (CVal.n (t0 + REFRESH_TOKEN_EXPIRE_DAYS * 86400)))
      "type" (CVal.s "refresh")) "jti" (CVal.s j)) "type" =
      some (CVal.s "refresh") := by
    rw [dictGet_dictSet_ne _ _ _ _ (by decide), dictGet_dictSet_self]
  simp only [beq_self_eq_true, if_true, hexp]
  by_cases hlt : t0 + REFRESH_TOKEN_EXPIRE_DAYS * 86400 < now
  · simp [hlt]
  · simp [hlt, hty]

theorem decode_access_create (data : Claims) (t0 now : Nat) (j : String) :
    decode_access_token (create_access_token data none t0 j) now =
      (if t0 + ACCESS_TOKEN_EXPIRE_MINUTES * 60 < now then none
       else some (dictSet (dictSet (dictSet data "exp"
         (CVal.n (t0 + ACCESS_TOKEN_EXPIRE_MINUTES * 60)))
         "type" (CVal.s "access")) "jti" (CVal.s j))) := by
  unfold decode_access_token jwtDecode create_access_token jwtEncode
  have hexp : dictGet (dictSet (dictSet (dictSet data "exp"
      (CVal.n (t0 + ACCESS_TOKEN_EXPIRE_MINUTES * 60)))
      "type" (CVal.s "access")) "jti" (CVal.s j)) "exp" =
      some (CVal.n (t0 + ACCESS_TOKEN_EXPIRE_MINUTES * 60)) := by
    rw [dictGet_dictSet_ne _ _ _ _ (by decide), dictGet_dictSet_ne _ _ _ _ (by decide),
      dictGet_dictSet_self]
  have hty : dictGet (dictSet (dictSet (dictSet data "exp"
      (CVal.n (t0 + ACCESS_TOKEN_EXPIRE_MINUTES * 60)))
      "type" (CVal.s "access")) "jti" (CVal.s j)) "type" =
      some (CVal.s "access") := by
    rw [dictGet_dictSet_ne _ _ _ _ (by decide), dictGet_dictSet_self]
  simp only [beq_self_eq_true, if_true, hexp]
  by_cases hlt : t0 + ACCESS_TOKEN_EXPIRE_MINUTES * 60 < now
  · simp [hlt]
  · simp [hlt, hty]

/-! ## C7: issue/verify round trip -/

/-- **C7.** For every claims dictionary and token class (access or refresh),
decoding a token issued from those claims with the matching class returns
exactly the claims the token was issued with — the original dictionary
extended in place with `exp`, `type` and `jti`, every other key keeping its
original value — as long as the current time has not passed the token's
`exp` (python-jose rejects only when `exp < now` strictly), and fails
(`None`, the `except JWTError` collapse of `Expired`) strictly after `exp`. -/
theorem token_round_trip (data : Claims) (t0 now : Nat) (jA jR : String) :
    (now ≤ t0 + ACCESS_TOKEN_EXPIRE_MINUTES * 60 →
      decode_access_token (create_access_token data none t0 jA) now =
        some (dictSet (dictSet (dictSet data "exp"
          (CVal.n (t0 + ACCESS_TOKEN_EXPIRE_MINUTES * 60)))
          "type" (CVal.s "access")) "jti" (CVal.s jA))) ∧
    (t0 + ACCESS_TOKEN_EXPIRE_MINUTES * 60 < now →
      decode_access_token (create_access_token data none t0 jA) now = none) ∧
    (now ≤ t0 + REFRESH_TOKEN_EXPIRE_DAYS * 86400 →
      decode_refresh_token (create_refresh_token data t0 jR) now =
        some (dictSet (dictSet (dictSet data "exp"
          (CVal.n (t0 + REFRESH_TOKEN_EXPIRE_DAYS * 86400)))
          "type" (CVal.s "refresh")) "jti" (CVal.s jR))) ∧
    (t0 + REFRESH_TOKEN_EXPIRE_DAYS * 86400 < now →
      decode_refresh_token (create_refresh_token data t0 jR) now = none) ∧
    (∀ k : String, k ≠ "exp" → k ≠ "type" → k ≠ "jti" →
      ∀ e ty j2 : CVal,
        dictGet (dictSet (dictSet (dictSet data "exp" e) "type" ty) "jti" j2) k
          = dictGet data k) := by
  refine ⟨?_, ?_, ?_, ?_, ?_⟩
  · intro h; rw [decode_access_create, if_neg (by omega)]
  · intro h; rw [decode_access_create, if_pos h]
  · intro h; rw [decode_refresh_create, if_neg (by omega)]
  · intro h; rw [decode_refresh_create, if_pos h]
  · intro k h1 h2 h3 e ty j2
    rw [dictGet_dictSet_ne _ _ _ _ h3, dictGet_dictSet_ne _ _ _ _ h2,
      dictGet_dictSet_ne _ _ _ _ h1]

/-- Witness for `token_round_trip` at concrete inputs (access `exp` is 1900,
refresh `exp` is 605800). -/
theorem token_round_trip_witness :
    decode_refresh_token (create_refresh_token [("sub", CVal.s "a@x.com")] 1000 "J") 600000 =
      some (dictSet (dictSet (dictSet [("sub", CVal.s "a@x.com")] "exp"
        (CVal.n (1000 + REFRESH_TOKEN_EXPIRE_DAYS * 86400)))
        "type" (CVal.s "refresh")) "jti" (CVal.s "J")) ∧
    decode_refresh_token (create_refresh_token [("sub", CVal.s "a@x.com")] 1000 "J") 605801 = none ∧
    decode_access_token (create_access_token [("sub", CVal.s "a@x.com")] none 1000 "J") 1900 =
      some (dictSet (dictSet (dictSet [("sub", CVal.s "a@x.com")] "exp"
        (CVal.n (1000 + ACCESS_TOKEN_EXPIRE_MINUTES * 60)))
        "type" (CVal.s "access")) "jti" (CVal.s "J")) ∧
    decode_access_token (create_access_token [("sub", CVal.s "a@x.com")] none 1000 "J") 1901 = none := by
  refine ⟨?_, ?_, ?_, ?_⟩
  · exact (token_round_trip [("sub", CVal.s "a@x.com")] 1000 600000 "J" "J").2.2.1
      (by norm_num [REFRESH_TOKEN_EXPIRE_DAYS])
  · exact (token_round_trip [("sub", CVal.s "a@x.com")] 1000 605801 "J" "J").2.2.2.1
      (by norm_num [REFRESH_TOKEN_EXPIRE_DAYS])
  · exact (token_round_trip [("sub", CVal.s "a@x.com")] 1000 1900 "J" "J").1
      (by norm_num [ACCESS_TOKEN_EXPIRE_MINUTES])
  · exact (token_round_trip [("sub", CVal.s "a@x.com")] 1000 1901 "J" "J").2.1
      (by norm_num [ACCESS_TOKEN_EXPIRE_MINUTES])

/-! ## C8: purge removes exactly the expired rows -/

theorem length_sub_filter_not {α : Type} (l : List α) (p : α → Bool) :
    l.length - (l.filter (fun a => !(p a))).length = (l.filter p).length := by
  induction l with
  | nil => rfl
  | cons a t ih =>
      have hle := List.length_filter_le (fun a => !(p a)) t
      by_cases h : p a <;> simp [List.filter_cons, h] <;> omega

/-- **C8.** `PurgeExpired` — `cleanup_expired_blacklist` together with
`cleanup_expired_refresh_tokens` — removes exactly the rows whose expiry has
passed (`expires_at < now`): a blacklist entry or ledger row survives the
purge, unchanged, iff it is unexpired, independently of its `is_revoked`
flag — so a revoked-but-unexpired ledger row survives and an expired row is
removed whether or not it was revoked. The returned counts are the numbers
of deleted rows and no other table is touched. -/
theorem purge_removes_exactly_expired (db : DB) (now : Nat) :
    (∀ r : RefreshRow,
      r ∈ (cleanup_expired_refresh_tokens db now).1.refresh_tokens ↔
        r ∈ db.refresh_tokens ∧ now ≤ r.expires_at) ∧
    (∀ b : BlacklistRow,
      b ∈ (cleanup_expired_blacklist db now).1.blacklist ↔
        b ∈ db.blacklist ∧ now ≤ b.expires_at) ∧
    (cleanup_expired_refresh_tokens db now).1.users = db.users ∧
    (cleanup_expired_refresh_tokens db now).1.blacklist = db.blacklist ∧
    (cleanup_expired_blacklist db now).1.users = db.users ∧
    (cleanup_expired_blacklist db now).1.refresh_tokens = db.refresh_tokens ∧
    (cleanup_expired_refresh_tokens db now).2 =
      (db.refresh_tokens.filter (fun r => decide (r.expires_at < now))).length ∧
    (cleanup_expired_blacklist db now).2 =
      (db.blacklist.filter (fun b => decide (b.expires_at < now))).length := by
  refine ⟨?_, ?_, rfl, rfl, rfl, rfl, ?_, ?_⟩
  · intro r
    simp [cleanup_expired_refresh_tokens, List.mem_filter, Nat.not_lt]
  · intro b
    simp [cleanup_expired_blacklist, List.mem_filter, Nat.not_lt]
  · exact length_sub_filter_not db.refresh_tokens (fun r => decide (r.expires_at < now))
  · exact length_sub_filter_not db.blacklist (fun b => decide (b.expires_at < now))

/-- Witness for `purge_removes_exactly_expired`: at time 5000, a
revoked-but-unexpired row (`jA`, expiry 9000) survives; an expired unrevoked
row (`jB`, expiry 50) and an expired revoked row (`jC`, expiry 60) are
removed. -/
theorem purge_removes_exactly_expired_witness :
    ((⟨"jA", "a@x.com", hash_token tok0, 9000, true, some 100, none⟩ : RefreshRow) ∈
      (cleanup_expired_refresh_tokens
        ⟨[], [], [⟨"jA", "a@x.com", hash_token tok0, 9000, true, some 100, none⟩,
                  ⟨"jB", "b@x.com", hash_token tok0, 50, false, none, none⟩,
                  ⟨"jC", "c@x.com", hash_token tok0, 60, true, some 55, none⟩]⟩
        5000).1.refresh_tokens) ∧
    ¬ ((⟨"jB", "b@x.com", hash_token tok0, 50, false, none, none⟩ : RefreshRow) ∈
      (cleanup_expired_refresh_tokens
        ⟨[], [], [⟨"jA", "a@x.com", hash_token tok0, 9000, true, some 100, none⟩,
                  ⟨"jB", "b@x.com", hash_token tok0, 50, false, none, none⟩,
                  ⟨"jC", "c@x.com", hash_token tok0, 60, true, some 55, none⟩]⟩
        5000).1.refresh_tokens) ∧
    ¬ ((⟨"jC", "c@x.com", hash_token tok0, 60, true, some 55, none⟩ : RefreshRow) ∈
      (cleanup_expired_refresh_tokens
        ⟨[], [], [⟨"jA", "a@x.com", hash_token tok0, 9000, true, some 100, none⟩,
                  ⟨"jB", "b@x.com", hash_token tok0, 50, false, none, none⟩,
                  ⟨"jC", "c@x.com", hash_token tok0, 60, true, some 55, none⟩]⟩
        5000).1.refresh_tokens) := by
  have h := purge_removes_exactly_expired
    ⟨[], [], [⟨"jA", "a@x.com", hash_token tok0, 9000, true, some 100, none⟩,
              ⟨"jB", "b@x.com", hash_token tok0, 50, false, none, none⟩,
              ⟨"jC", "c@x.com", hash_token tok0, 60, true, some 55, none⟩]⟩ 5000
  refine ⟨(h.1 _).mpr ⟨by simp, by norm_num⟩, fun hc => ?_, fun hc => ?_⟩
  · have := ((h.1 _).mp hc).2
    norm_num at this
  · have := ((h.1 _).mp hc).2
    norm_num at this

/-! ## C10: revoke_all_user_tokens frame conditions -/

/-- **C10.** `revoke_all_user_tokens` mutates only the ledger rows whose
`user_email` equals the given email and whose `is_revoked` flag is false:
every other row — rows of other users, and already-revoked rows including
their existing `revoked_at` timestamps — is left unchanged in place; matching
rows are marked revoked at the call's time; the users and blacklist tables
are untouched; and the returned count equals the number of rows newly marked
revoked by this call. -/
theorem revoke_all_frame (db : DB) (email : String) (now : Nat) :
    (revoke_all_user_tokens db email now).1.users = db.users ∧
    (revoke_all_user_tokens db email now).1.blacklist = db.blacklist ∧
    (revoke_all_user_tokens db email now).1.refresh_tokens.length =
      db.refresh_tokens.length ∧
    (revoke_all_user_tokens db email now).2 =
      (db.refresh_tokens.filter
        (fun r => r.user_email == email && !r.is_revoked)).length ∧
    (∀ i : Nat, ∀ d : RefreshRow, i < db.refresh_tokens.length →
      ((db.refresh_tokens.getD i d).user_email ≠ email ∨
          (db.refresh_tokens.getD i d).is_revoked = true →
        (revoke_all_user_tokens db email now).1.refresh_tokens.getD i d =
          db.refresh_tokens.getD i d) ∧
      ((db.refresh_tokens.getD i d).user_email = email ∧
          (db.refresh_tokens.getD i d).is_revoked = false →
        (revoke_all_user_tokens db email now).1.refresh_tokens.getD i d =
          { db.refresh_tokens.getD i d with
              is_revoked := true, revoked_at := some now })) := by
  refine ⟨rfl, rfl, by simp [revoke_all_user_tokens], rfl, ?_⟩
  intro i d hi
  have hmap : (revoke_all_user_tokens db email now).1.refresh_tokens.getD i d =
      (if (db.refresh_tokens.getD i d).user_email == email &&
          !(db.refresh_tokens.getD i d).is_revoked then
        { db.refresh_tokens.getD i d with
            is_revoked := true, revoked_at := some now }
      else db.refresh_tokens.getD i d) := by
    simp [revoke_all_user_tokens, List.getD_eq_getElem?_getD, List.getElem?_map,
      List.getElem?_eq_getElem hi]
  constructor
  · intro hcond
    have hfalse : ((db.refresh_tokens.getD i d).user_email == email &&
        !(db.refresh_tokens.getD i d).is_revoked) = false := by
      rcases hcond with h | h
      · rw [beq_eq_false_iff_ne.mpr h, Bool.false_and]
      · rw [h]
        exact Bool.and_false _
    rw [hmap, if_neg (by rw [hfalse]; exact Bool.false_ne_true)]
  · intro hcond
    have htrue : ((db.refresh_tokens.getD i d).user_email == email &&
        !(db.refresh_tokens.getD i d).is_revoked) = true := by
      rw [beq_iff_eq.mpr hcond.1, Bool.true_and, hcond.2]
      rfl
    rw [hmap, if_pos htrue]

/-- Witness for `revoke_all_frame` on `dbMix` at time 5000: the other user's
row and the already-revoked row (with its old `revoked_at = 77`) are
unchanged, the active row of `a@x.com` is revoked at 5000, and the count is
1. -/
theorem revoke_all_frame_witness :
    (revoke_all_user_tokens dbMix "a@x.com" 5000).2 = 1 ∧
    (revoke_all_user_tokens dbMix "a@x.com" 5000).1.refresh_tokens.getD 1 rowA = rowB ∧
    (revoke_all_user_tokens dbMix "a@x.com" 5000).1.refresh_tokens.getD 2 rowA = rowC ∧
    (revoke_all_user_tokens dbMix "a@x.com" 5000).1.refresh_tokens.getD 0 rowA =
      { rowA with is_revoked := true, revoked_at := some 5000 } := by
  have h := revoke_all_frame dbMix "a@x.com" 5000
  refine ⟨h.2.2.2.1.trans (by decide), ?_, ?_, ?_⟩
  · exact ((h.2.2.2.2 1 rowA (by decide)).1 (Or.inr (by decide))).trans (by decide)
  · exact ((h.2.2.2.2 2 rowA (by decide)).1 (Or.inl (by decide))).trans (by decide)
  · exact ((h.2.2.2.2 0 rowA (by decide)).2 ⟨by decide, by decide⟩).trans (by decide)

/-! ## C3: logout never touches the refresh-token ledger -/

theorem blacklist_token_frame (db : DB) (jti ty : String) (exp : Nat)
    (owner : Option String) :
    ∀ p : DB × BlacklistRow, blacklist_token db jti ty exp owner = some p →
      p.1.refresh_tokens = db.refresh_tokens ∧ p.1.users = db.users := by
  intro p h
  unfold blacklist_token at h
  split at h
  · exact absurd h (by simp)
  · rw [Option.some.injEq] at h
    rw [← h]
    exact ⟨rfl, rfl⟩

/-- **C3 (code bug).** The claim (and the endpoint's own docstring, which
documents an optional `refresh_token` body field) says Logout additionally
revokes the ledger row of a supplied refresh token. The handler declares no
body parameter and never calls `revoke_refresh_token`: for every database,
authorization header and time, logout leaves the refresh-token ledger and
the users table unchanged — blacklisting the access token's jti is its only
effect — while always reporting success. -/
theorem logout_ignores_refresh_ledger (db : DB) (auth : Option SignedToken)
    (now : Nat) :
    (logout db auth now).1.refresh_tokens = db.refresh_tokens ∧
    (logout db auth now).1.users = db.users ∧
    (logout db auth now).2.success = true := by
  unfold logout
  dsimp only
  split
  · exact ⟨rfl, rfl, rfl⟩
  · split
    · exact ⟨rfl, rfl, rfl⟩
    · split
      · split
        · exact ⟨rfl, rfl, rfl⟩
        · rename_i res heq
          have hfr := blacklist_token_frame _ _ _ _ _ res heq
          exact ⟨hfr.1, hfr.2, rfl⟩
      · exact ⟨rfl, rfl, rfl⟩

/-! ## C2: rotation with a missing or non-ACTIVE old row -/

/-- **C2 (code bug, acknowledged by spec §9's open question).**
`rotate_refresh_token` neither requires the old row to be ACTIVE nor fails
when it cannot be located. First conjunct: on an empty ledger, rotating from
the unknown jti `oldJ` silently succeeds, inserting a fresh ACTIVE row for
`newJ` and revoking nothing. Second conjunct: when the only row for `oldJ`
is already revoked (revoked at 77, replaced by `R0`), rotation still
succeeds and re-marks it, overwriting its revocation metadata. -/
theorem rotate_missing_row_inserts_without_revoking :
    rotate_refresh_token dbEmpty "oldJ" "newJ" "a@x.com" tok0 604800 2000 =
      some (⟨[], [], [⟨"newJ", "a@x.com", hash_token tok0, 604800, false, none, none⟩]⟩,
            ⟨"newJ", "a@x.com", hash_token tok0, 604800, false, none, none⟩) ∧
    rotate_refresh_token
      ⟨[], [], [⟨"oldJ", "a@x.com", hash_token tok0, 9000, true, some 77, some "R0"⟩]⟩
      "oldJ" "newJ" "a@x.com" tok0 604800 2000 =
      some (⟨[], [], [⟨"oldJ", "a@x.com", hash_token tok0, 9000, true, some 2000, some "newJ"⟩,
                      ⟨"newJ", "a@x.com", hash_token tok0, 604800, false, none, none⟩]⟩,
            ⟨"newJ", "a@x.com", hash_token tok0, 604800, false, none, none⟩) := by
  exact ⟨rfl, rfl⟩

/-! ## C5: the declared response model drops the refresh token -/

/-- **C5 (code bug).** The three token-issuing flows build
`TokenResponse(access_token=…, refresh_token=…, token_type="bearer",
expires_in=…, user=…)`, but `schemas.TokenResponse` declares only
`access_token`, `token_type` and `user`; pydantic ignores unknown
constructor keywords and FastAPI serializes `response_model=TokenResponse`
fields only. So a successful Register's serialized response carries
`access_token`, `token_type = "bearer"` and the user view, but no
`refresh_token` and no expires-in field — even though the handler minted a
refresh token — contradicting the claim (and the handlers' docstrings). -/
theorem token_response_drops_refresh_fields :
    ∃ p, register dbEmpty "a@x.com" "secret99" none none 1000 "A1" "R1" = Except.ok p ∧
      (tokenResponseJson (toTokenResponse p.2)).lookup "refresh_token" = none ∧
      (tokenResponseJson (toTokenResponse p.2)).lookup "expires_in" = none ∧
      (tokenResponseJson (toTokenResponse p.2)).lookup "access_token" =
        some (JVal.tok (create_access_token [("sub", CVal.s "a@x.com")] none 1000 "A1")) ∧
      (tokenResponseJson (toTokenResponse p.2)).lookup "token_type" =
        some (JVal.str "bearer") ∧
      p.2.refresh_token = create_refresh_token [("sub", CVal.s "a@x.com")] 1000 "R1" := by
  refine ⟨_, rfl, ?_, ?_, ?_, ?_, ?_⟩ <;> rfl

/-! ## C6: blacklist writes are unique-keyed inserts, not upserts -/

/-- **C6 counterexample.** Blacklisting the already-present jti `J1` a second
time does not succeed: `blacklist_token` is a plain insert on the
jti-unique blacklist table, so the commit raises an integrity error
(modelled `none`) — refuting "blacklisting it a second time succeeds
without error". -/
theorem blacklist_second_insert_fails :
    blacklist_token dbBl "J1" "access" 5000 none = none := rfl

/-- **C6 (amended).** Blacklist writes are keyed by the unique `jti` but are
plain inserts, not idempotent upserts: blacklisting a fresh jti succeeds,
appending exactly one entry for that jti; blacklisting a jti already present
fails with an integrity error, leaving the table unchanged. At most one
entry per jti ever exists, and the idempotence the spec intends lives in the
logout caller, which swallows the duplicate-insert error. -/
theorem blacklist_unique_jti_semantics (db : DB) (jti ty : String)
    (exp : Nat) (owner : Option String) :
    (is_token_blacklisted db jti = true →
      blacklist_token db jti ty exp owner = none) ∧
    (is_token_blacklisted db jti = false →
      ∃ row : BlacklistRow, blacklist_token db jti ty exp owner =
          some ({ db with blacklist := db.blacklist ++ [row] }, row) ∧
        ((db.blacklist ++ [row]).filter (fun b => b.jti == jti)).length = 1 ∧
        row.jti = jti) := by
  constructor
  · intro h
    unfold blacklist_token
    rw [if_pos]
    exact h
  · intro h
    refine ⟨⟨jti, ty, owner, exp⟩, ?_, ?_, rfl⟩
    · unfold blacklist_token
      rw [if_neg]
      unfold is_token_blacklisted at h
      simp [h]
    · rw [List.filter_append]
      have h1 : db.blacklist.filter (fun b => b.jti == jti) = [] := by
        rw [List.filter_eq_nil_iff]
        intro b hb
        unfold is_token_blacklisted at h
        exact (List.any_eq_false.mp h) b hb
      rw [h1]
      simp

/-- Witness for `blacklist_unique_jti_semantics` on `dbBl`: the present jti
`J1` is rejected, the fresh jti `J2` is inserted exactly once. -/
theorem blacklist_unique_jti_semantics_witness :
    blacklist_token dbBl "J1" "refresh" 7000 none = none ∧
    ∃ row : BlacklistRow, blacklist_token dbBl "J2" "access" 6000 none =
        some ({ dbBl with blacklist := dbBl.blacklist ++ [row] }, row) ∧
      ((dbBl.blacklist ++ [row]).filter (fun b => b.jti == "J2")).length = 1 ∧
      row.jti = "J2" :=
  ⟨(blacklist_unique_jti_semantics dbBl "J1" "refresh" 7000 none).1 (by decide),
   (blacklist_unique_jti_semantics dbBl "J2" "access" 6000 none).2 (by decide)⟩

/-! ## C4: the duplicate-email check is case-sensitive -/

/-- **C4 counterexample.** After `Register("a@x.com")` succeeds (first
conjunct, producing `dbReg`), registering the case variant `"A@x.com"` also
succeeds and creates a second user (second conjunct) instead of failing with
DuplicateEmail: `get_user_by_email` filters on exact column equality and
nothing in the source lowercases emails. -/
theorem register_case_variant_succeeds :
    (∃ p, register dbEmpty "a@x.com" "secret99" none none 1000 "A1" "R1" =
        Except.ok p ∧ p.1 = dbReg) ∧
    (∃ q, register dbReg "A@x.com" "secret99" none none 2000 "A2" "R2" =
        Except.ok q ∧ q.1.users.length = 2) := by
  exact ⟨⟨_, rfl, rfl⟩, ⟨_, rfl, rfl⟩⟩

/-- **C4 (amended).** Register fails with DuplicateEmail (HTTP 400, "Email
already registered") exactly when some user row carries the *identical*
email string: the duplicate check is case-sensitive, so a second
`Register("a@x.com")` fails while `Register("A@x.com")` is treated as a new
email. -/
theorem register_duplicate_exact_match (db : DB) (email pw : String)
    (fn ph : Option String) (now : Nat) (jA jR : String) :
    register db email pw fn ph now jA jR =
        Except.error ⟨400, "Email already registered"⟩ ↔
      ∃ u ∈ db.users, u.email = email := by
  constructor
  · intro h
    cases hu : get_user_by_email db email with
    | some u =>
        unfold get_user_by_email at hu
        have hp : (u.email == email) = true :=
          @List.find?_some _ (fun x => x.email == email) u _ hu
        exact ⟨u, List.mem_of_find?_eq_some hu, beq_iff_eq.mp hp⟩
    | none =>
        exfalso
        unfold register at h
        rw [hu] at h
        dsimp only at h
        split at h
        · exact absurd h (by simp)
        · exact absurd h (by simp)
  · intro hex
    obtain ⟨u, hu, he⟩ := hex
    unfold register
    cases hu2 : get_user_by_email db email with
    | some _ => rfl
    | none =>
        exfalso
        unfold get_user_by_email at hu2
        rw [List.find?_eq_none] at hu2
        exact hu2 u hu (beq_iff_eq.mpr he)

/-- Witness for `register_duplicate_exact_match`: a second registration with
the identical email string fails with DuplicateEmail. -/
theorem register_duplicate_exact_match_witness :
    register dbReg "a@x.com" "otherpw" none none 3000 "A3" "R3" =
      Except.error ⟨400, "Email already registered"⟩ :=
  (register_duplicate_exact_match dbReg "a@x.com" "otherpw" none none 3000 "A3" "R3").mpr
    ⟨⟨1, "a@x.com", hash_password "secret99", none, none, true, false, 1000, none⟩,
     by decide, rfl⟩

/-! ## C9: the ledger stores only a digest of the signed token -/

theorem get_token_jti_refresh_create (data : Claims) (t0 : Nat) (j : String) :
    get_token_jti (create_refresh_token data t0 j) "refresh" t0 = some j := by
  unfold get_token_jti
  rw [if_neg (by decide), decode_refresh_create, if_neg (by omega)]
  dsimp only [dictGetS]
  rw [dictGet_dictSet_self]

theorem register_ok (db : DB) (email pw : String) (fn ph : Option String)
    (now : Nat) (jA jR : String)
    (hu : get_user_by_email db email = none) (hjR : jR ≠ "")
    (hfresh : db.refresh_tokens.any (fun r => r.jti == jR) = false) :
    register db email pw fn ph now jA jR = Except.ok
      ({ users := db.users ++
            [⟨db.users.length + 1, email, hash_password pw, fn, ph, true, false, now, none⟩],
         blacklist := db.blacklist,
         refresh_tokens := db.refresh_tokens ++
            [⟨jR, email, hash_token (create_refresh_token [("sub", CVal.s email)] now jR),
              now + REFRESH_TOKEN_EXPIRE_DAYS * 86400, false, none, none⟩] },
       { access_token := create_access_token [("sub", CVal.s email)] none now jA,
         refresh_token := create_refresh_token [("sub", CVal.s email)] now jR,
         token_type := "bearer", expires_in := ACCESS_TOKEN_EXPIRE_MINUTES * 60,
         user := ⟨db.users.length + 1, email, fn, ph, true, false, some now⟩ }) := by
  unfold register
  rw [hu]
  dsimp only [create_user, create_token_pair]
  rw [get_token_jti_refresh_create]
  have ht : strTruthy (some jR) = true := by simp [strTruthy, hjR]
  rw [ht, if_pos rfl]
  unfold store_refresh_token
  rw [if_neg (by dsimp only [Option.getD]; rw [hfresh]; exact Bool.false_ne_true)]
  rfl

/-- **C9.** Ledger rows persist only a one-way deterministic digest of the
full signed token, never the raw token: (i) the modelled SHA-256 digest is
deterministic (a function) and collision-resistant (injective), and lives in
a type disjoint from raw tokens, so no digest value is a raw token; (ii)
every row inserted by `store_refresh_token` carries `hash_token token` in
`token_hash`, its only other string fields being the caller's `jti` and
email identifiers; (iii) in the register flow the single ledger row added
stores exactly the digest of the refresh token returned to the client. -/
theorem ledger_stores_only_token_digest :
    (∀ t t2 : SignedToken, hash_token t = hash_token t2 → t = t2) ∧
    (∀ (db : DB) (jti email : String) (tok : SignedToken) (exp : Nat)
        (p : DB × RefreshRow),
      store_refresh_token db jti email tok exp = some p →
        p.2.token_hash = hash_token tok ∧ p.2.jti = jti ∧
        p.2.user_email = email ∧ p.2.expires_at = exp ∧
        p.2.is_revoked = false ∧
        p.1.refresh_tokens = db.refresh_tokens ++ [p.2] ∧
        p.1.users = db.users ∧ p.1.blacklist = db.blacklist) ∧
    (∀ (db : DB) (email pw : String) (fn ph : Option String) (now : Nat)
        (jA jR : String),
      get_user_by_email db email = none → jR ≠ "" →
      db.refresh_tokens.any (fun r => r.jti == jR) = false →
      ∃ p, register db email pw fn ph now jA jR = Except.ok p ∧
        p.1.refresh_tokens = db.refresh_tokens ++
          [⟨jR, email, hash_token p.2.refresh_token,
            now + REFRESH_TOKEN_EXPIRE_DAYS * 86400, false, none, none⟩]) := by
  refine ⟨?_, ?_, ?_⟩
  · intro t t2 h
    injection h
  · intro db jti email tok exp p h
    unfold store_refresh_token at h
    split at h
    · exact absurd h (by simp)
    · rw [Option.some.injEq] at h
      subst h
      exact ⟨rfl, rfl, rfl, rfl, rfl, rfl, rfl, rfl⟩
  · intro db email pw fn ph now jA jR hu hjR hfresh
    exact ⟨_, register_ok db email pw fn ph now jA jR hu hjR hfresh, rfl⟩

/-- Witness for `ledger_stores_only_token_digest` at concrete inputs. -/
theorem ledger_stores_only_token_digest_witness :
    (∃ p, store_refresh_token dbEmpty "jtiR0" "a@x.com" tok0 605800 = some p ∧
      p.2.token_hash = hash_token tok0 ∧ p.2.jti = "jtiR0") ∧
    (∃ q, register dbEmpty "b@x.com" "pw123456" none none 1000 "A1" "R1" = Except.ok q ∧
      q.1.refresh_tokens = dbEmpty.refresh_tokens ++
        [⟨"R1", "b@x.com", hash_token q.2.refresh_token,
          1000 + REFRESH_TOKEN_EXPIRE_DAYS * 86400, false, none, none⟩]) := by
  constructor
  · refine ⟨_, rfl, ?_, ?_⟩
    · exact (ledger_stores_only_token_digest.2.1 dbEmpty "jtiR0" "a@x.com" tok0
        605800 _ rfl).1
    · exact (ledger_stores_only_token_digest.2.1 dbEmpty "jtiR0" "a@x.com" tok0
        605800 _ rfl).2.1
  · exact ledger_stores_only_token_digest.2.2 dbEmpty "b@x.com" "pw123456"
      none none 1000 "A1" "R1" rfl (by decide) rfl

/-! ## C1: a refresh token is single-use -/

theorem any_eq_of_fun_eq {α : Type} (l : List α) (p q : α → Bool)
    (h : ∀ a, p a = q a) : l.any p = l.any q := by
  induction l with
  | nil => rfl
  | cons a t ih => simp only [List.any_cons, h a, ih]

theorem find?_eq_of_fun_eq {α : Type} (l : List α) (p q : α → Bool)
    (h : ∀ a, p a = q a) : l.find? p = l.find? q := by
  induction l with
  | nil => rfl
  | cons a t ih => simp only [List.find?, h a, ih]

/-- A successful refresh fully characterized: under the source's guards —
valid signature and expiry, jti not blacklisted, ledger row active,
unexpired and hash-matching, owner present and active, fresh non-empty new
jti — the flow returns a new access/refresh pair minted at `now`, marks the
old row revoked with `replaced_by` the new jti, and appends the new active
row. -/
theorem refresh_ok (db : DB) (email : String) (t0 now : Nat) (j jA2 jR2 : String)
    (r : RefreshRow) (u : UserRow)
    (hj : j ≠ "") (hjR2 : jR2 ≠ "")
    (hnow : now ≤ t0 + REFRESH_TOKEN_EXPIRE_DAYS * 86400)
    (hbl : is_token_blacklisted db j = false)
    (hrow : get_refresh_token db j = some r)
    (hrev : r.is_revoked = false)
    (hexp : ¬ r.expires_at < now)
    (hhash : r.token_hash = hash_token (create_refresh_token [("sub", CVal.s email)] t0 j))
    (huser : get_user_by_email db email = some u)
    (hact : u.is_active = true)
    (hfresh : db.refresh_tokens.any (fun w => w.jti == jR2) = false) :
    refresh_tokens db (create_refresh_token [("sub", CVal.s email)] t0 j) now jA2 jR2 =
      Except.ok
        ({ users := db.users, blacklist := db.blacklist,
           refresh_tokens := (db.refresh_tokens.map (fun w =>
              if w.jti == j then
                { w with
                    is_revoked := true
                    revoked_at := some now
                    replaced_by := some jR2 }
              else w)) ++
            [⟨jR2, email, hash_token (create_refresh_token [("sub", CVal.s email)] now jR2),
              now + REFRESH_TOKEN_EXPIRE_DAYS * 86400, false, none, none⟩] },
         { access_token := create_access_token [("sub", CVal.s email)] none now jA2,
           refresh_token := create_refresh_token [("sub", CVal.s email)] now jR2,
           token_type := "bearer", expires_in := ACCESS_TOKEN_EXPIRE_MINUTES * 60,
           user := userResponseOf u }) := by
  have hP : decode_refresh_token (create_refresh_token [("sub", CVal.s email)] t0 j) now =
      some [("sub", CVal.s email),
            ("exp", CVal.n (t0 + REFRESH_TOKEN_EXPIRE_DAYS * 86400)),
            ("type", CVal.s "refresh"), ("jti", CVal.s j)] := by
    rw [decode_refresh_create, if_neg (by omega)]
    rfl
  have hjti : dictGet [("sub", CVal.s email),
      ("exp", CVal.n (t0 + REFRESH_TOKEN_EXPIRE_DAYS * 86400)),
      ("type", CVal.s "refresh"), ("jti", CVal.s j)] "jti" = some (CVal.s j) := rfl
  have hsub : dictGet [("sub", CVal.s email),
      ("exp", CVal.n (t0 + REFRESH_TOKEN_EXPIRE_DAYS * 86400)),
      ("type", CVal.s "refresh"), ("jti", CVal.s j)] "sub" = some (CVal.s email) := rfl
  have hc1 : cvTruthy (some (CVal.s j)) = true := by simp [cvTruthy, hj]
  have hc2 : blacklistedCV db (some (CVal.s j)) = false := hbl
  have hval : validate_refresh_token db j
      (create_refresh_token [("sub", CVal.s email)] t0 j) now = true := by
    unfold validate_refresh_token
    rw [hrow]
    dsimp only
    rw [if_neg (by rw [hrev]; exact Bool.false_ne_true), if_neg hexp, hhash]
    exact beq_self_eq_true _
  have hs2 : strTruthy (some jR2) = true := by simp [strTruthy, hjR2]
  have hrot : rotate_refresh_token db j jR2 email
      (create_refresh_token [("sub", CVal.s email)] now jR2)
      (now + REFRESH_TOKEN_EXPIRE_DAYS * 86400) now =
      some
        ({ users := db.users, blacklist := db.blacklist,
           refresh_tokens := (db.refresh_tokens.map (fun w =>
              if w.jti == j then
                { w with
                    is_revoked := true
                    revoked_at := some now
                    replaced_by := some jR2 }
              else w)) ++
            [⟨jR2, email, hash_token (create_refresh_token [("sub", CVal.s email)] now jR2),
              now + REFRESH_TOKEN_EXPIRE_DAYS * 86400, false, none, none⟩] },
         ⟨jR2, email, hash_token (create_refresh_token [("sub", CVal.s email)] now jR2),
           now + REFRESH_TOKEN_EXPIRE_DAYS * 86400, false, none, none⟩) := by
    unfold rotate_refresh_token
    rw [hrow]
    dsimp only
    unfold store_refresh_token
    rw [if_neg ?hguard]
    case hguard =>
      dsimp only
      rw [List.any_map]
      rw [any_eq_of_fun_eq _ _ (fun w => w.jti == jR2)
        (fun w => by by_cases hw : (w.jti == j) = true <;> simp [Function.comp, hw])]
      rw [hfresh]
      exact Bool.false_ne_true
  unfold refresh_tokens
  rw [hP]
  dsimp only
  rw [hjti, hsub, hc1, hc2]
  rw [Bool.and_false, if_neg Bool.false_ne_true]
  dsimp only
  rw [hval]
  rw [Bool.not_true, if_neg Bool.false_ne_true]
  rw [huser]
  dsimp only
  rw [hact, Bool.not_true, if_neg Bool.false_ne_true]
  dsimp only [create_token_pair]
  rw [get_token_jti_refresh_create]
  rw [hs2, Bool.and_self, if_pos rfl]
  dsimp only [Option.getD]
  rw [hrot]
  rfl

/-- A refresh presented with a token whose ledger row is revoked fails with
HTTP 401 "Invalid or revoked refresh token" (the code's TokenRevoked),
provided the token itself still decodes. -/
theorem refresh_rejects_revoked (db : DB) (email : String) (t0 now : Nat)
    (j jA2 jR2 : String) (r2 : RefreshRow)
    (hj : j ≠ "")
    (hnow : now ≤ t0 + REFRESH_TOKEN_EXPIRE_DAYS * 86400)
    (hbl : is_token_blacklisted db j = false)
    (hrow : get_refresh_token db j = some r2)
    (hrev : r2.is_revoked = true) :
    refresh_tokens db (create_refresh_token [("sub", CVal.s email)] t0 j) now jA2 jR2 =
      Except.error ⟨401, "Invalid or revoked refresh token"⟩ := by
  have hP : decode_refresh_token (create_refresh_token [("sub", CVal.s email)] t0 j) now =
      some [("sub", CVal.s email),
            ("exp", CVal.n (t0 + REFRESH_TOKEN_EXPIRE_DAYS * 86400)),
            ("type", CVal.s "refresh"), ("jti", CVal.s j)] := by
    rw [decode_refresh_create, if_neg (by omega)]
    rfl
  have hjti : dictGet [("sub", CVal.s email),
      ("exp", CVal.n (t0 + REFRESH_TOKEN_EXPIRE_DAYS * 86400)),
      ("type", CVal.s "refresh"), ("jti", CVal.s j)] "jti" = some (CVal.s j) := rfl
  have hc1 : cvTruthy (some (CVal.s j)) = true := by simp [cvTruthy, hj]
  have hc2 : blacklistedCV db (some (CVal.s j)) = false := hbl
  have hval : validate_refresh_token db j
      (create_refresh_token [("sub", CVal.s email)] t0 j) now = false := by
    unfold validate_refresh_token
    rw [hrow]
    dsimp only
    rw [if_pos hrev]
  unfold refresh_tokens
  rw [hP]
  dsimp only
  rw [hjti, hc1, hc2, Bool.and_false, if_neg Bool.false_ne_true]
  dsimp only
  rw [hval]
  rfl

/-- After marking the row with jti `j`, looking `j` up finds the marked row. -/
theorem find?_jti_after_mark (l : List RefreshRow) (j jR2 : String) (now : Nat)
    (r : RefreshRow) (hrow : l.find? (fun w => w.jti == j) = some r) :
    (l.map (fun w => if w.jti == j then
        { w with is_revoked := true, revoked_at := some now, replaced_by := some jR2 }
      else w)).find? (fun w => w.jti == j) =
      some { r with is_revoked := true, revoked_at := some now, replaced_by := some jR2 } := by
  induction l with
  | nil => simp at hrow
  | cons a t ih =>
      by_cases ha : (a.jti == j) = true
      · simp only [List.map_cons, List.find?, ha] at hrow ⊢
        simp only [if_true] at hrow ⊢
        rw [Option.some.injEq] at hrow
        subst hrow
        rw [ha]
      · rw [Bool.not_eq_true] at ha
        simp only [List.map_cons, List.find?, ha] at hrow ⊢
        simp only [Bool.false_eq_true, if_false] at hrow ⊢
        rw [ha]
        exact ih hrow

/-- **C1.** A refresh token is single-use: with a fresh refresh token whose
ledger row is ACTIVE (not revoked, unexpired, hash-matching), whose jti is
not blacklisted, and whose owner exists and is active, the first `Refresh`
call succeeds and returns a newly minted access/refresh pair; any subsequent
call presenting the *same original* token, at any time while its signature
is still valid, fails with HTTP 401 "Invalid or revoked refresh token" — the
code's TokenRevoked — because rotation marked the original ledger row
revoked. -/
theorem refresh_single_use (db : DB) (email : String) (t0 now : Nat)
    (j jA2 jR2 : String) (r : RefreshRow) (u : UserRow)
    (hj : j ≠ "") (hjR2 : jR2 ≠ "")
    (hnow : now ≤ t0 + REFRESH_TOKEN_EXPIRE_DAYS * 86400)
    (hbl : is_token_blacklisted db j = false)
    (hrow : get_refresh_token db j = some r)
    (hrev : r.is_revoked = false)
    (hexp : ¬ r.expires_at < now)
    (hhash : r.token_hash = hash_token (create_refresh_token [("sub", CVal.s email)] t0 j))
    (huser : get_user_by_email db email = some u)
    (hact : u.is_active = true)
    (hfresh : db.refresh_tokens.any (fun w => w.jti == jR2) = false) :
    ∃ p : DB × TokenResponseArgs,
      refresh_tokens db (create_refresh_token [("sub", CVal.s email)] t0 j) now jA2 jR2 =
        Except.ok p ∧
      p.2.access_token = create_access_token [("sub", CVal.s email)] none now jA2 ∧
      p.2.refresh_token = create_refresh_token [("sub", CVal.s email)] now jR2 ∧
      ∀ (now2 : Nat) (jA3 jR3 : String),
        now2 ≤ t0 + REFRESH_TOKEN_EXPIRE_DAYS * 86400 →
        refresh_tokens p.1 (create_refresh_token [("sub", CVal.s email)] t0 j) now2 jA3 jR3 =
          Except.error ⟨401, "Invalid or revoked refresh token"⟩ := by
  refine ⟨_, refresh_ok db email t0 now j jA2 jR2 r u hj hjR2 hnow hbl hrow hrev
    hexp hhash huser hact hfresh, rfl, rfl, ?_⟩
  intro now2 jA3 jR3 hnow2
  refine refresh_rejects_revoked _ email t0 now2 j jA3 jR3
    { r with is_revoked := true, revoked_at := some now, replaced_by := some jR2 }
    hj hnow2 hbl ?_ rfl
  unfold get_refresh_token
  dsimp only
  rw [List.find?_append]
  unfold get_refresh_token at hrow
  rw [find?_jti_after_mark db.refresh_tokens j jR2 now r hrow]
  rfl

/-- Witness for `refresh_single_use` on the concrete `db0`: the token minted
at 1000 with jti `jtiR0` refreshes once at 2000 and is rejected at 3000. -/
theorem refresh_single_use_witness :
    ∃ p : DB × TokenResponseArgs,
      refresh_tokens db0 (create_refresh_token [("sub", CVal.s "a@x.com")] 1000 "jtiR0")
          2000 "A9" "R9" = Except.ok p ∧
      p.2.access_token = create_access_token [("sub", CVal.s "a@x.com")] none 2000 "A9" ∧
      p.2.refresh_token = create_refresh_token [("sub", CVal.s "a@x.com")] 2000 "R9" ∧
      refresh_tokens p.1 (create_refresh_token [("sub", CVal.s "a@x.com")] 1000 "jtiR0")
          3000 "A8" "R8" = Except.error ⟨401, "Invalid or revoked refresh token"⟩ := by
  obtain ⟨p, h1, h2, h3, h4⟩ := refresh_single_use db0 "a@x.com" 1000 2000 "jtiR0"
    "A9" "R9" row0 user0 (by decide) (by decide)
    (by norm_num [REFRESH_TOKEN_EXPIRE_DAYS]) rfl rfl rfl (by decide) rfl rfl rfl
    (by decide)
  exact ⟨p, h1, h2, h3, h4 3000 "A8" "R8" (by norm_num [REFRESH_TOKEN_EXPIRE_DAYS])⟩

end Hackthon
